import Mathlib

/-!
# XGTool: the dump-graphic and dump-anime commands

A shallow embedding of `cmd/dump_graphic.go`, `cmd/dumpanime/root.go`,
`pkg/utils.go` and `pkg/types/graphic.go`.

Go values are embedded as follows.

* `error` values are `Option GoError` (`none` is `nil`); a `GoError` is a
  sentinel made by `errors.New` or a `fmt.Errorf("%w")` wrapper around another
  error.
* `int32` and `int` are `Int`, `byte` is `Nat`; no arithmetic is performed on
  them by the commands, they are only compared and printed.
* `*os.File` is `File`, `none` being the nil pointer.
* A Go map is the list of its key/value pairs in the order in which the
  runtime iterates over it.
* Every effect the commands perform (a log record, a call of the per-entry
  function, a goroutine launched, a tick of the progress bar, the final
  `wg.Wait()`) is an `Event`; a command is a function to the list of events it
  performs, in program order. Debug-level log records and the deferred
  `Close` calls are not traced.
* Functions of the `pkg` package that the commands call but whose bodies are
  not part of the sources at hand are fields of an `Env`.
-/

namespace XGTool

/-! ## Errors -/

/-- Sentinel errors, each the result of one `errors.New`: the three exported
by `pkg` that `dump_graphic.go` names, `errPaletteNotFound` of
`dumpanime/root.go`, and `other code` for any other error value (an I/O
failure, say), told apart by `code`. -/
inductive Sentinel where
  | ErrInvalidMagic
  | ErrDecodeFailed
  | ErrEmptyPalette
  | errPaletteNotFound
  | other (code : Nat)
  deriving DecidableEq, Repr

/-- A Go error value: a sentinel, or `fmt.Errorf` with a `%w` verb around an
inner error, `msg` being the formatted text. -/
inductive GoError where
  | sentinel (s : Sentinel)
  | wrapped (msg : String) (inner : GoError)
  deriving DecidableEq, Repr

/-- Go `errors.Is(err, target)` for a sentinel `target`: compare, unwrap,
repeat. A wrapper is never identical to a sentinel. -/
def errorsIs : GoError → Sentinel → Bool
  | .sentinel s, target => decide (s = target)
  | .wrapped _ inner, target => errorsIs inner target

/-! ## Printing integers -/

/-- The verb `%d` of `fmt.Sprintf`: decimal digits, most significant first,
with a leading minus sign for a negative number. -/
def formatInt (n : Int) : String :=
  if n < 0 then "-" ++ String.mk (Nat.toDigits 10 n.natAbs)
  else String.mk (Nat.toDigits 10 n.natAbs)

/-! ## `pkg/types/graphic.go` -/

/-- The record `GraphicInfo` of `GraphicInfo*.bin`; the five blank bytes
between `Access` and `MapID` carry no value. -/
structure GraphicInfo where
  ID : Int
  Addr : Int
  Len : Int
  OffX : Int
  OffY : Int
  Width : Int
  Height : Int
  GridW : Nat
  GridH : Nat
  Access : Nat
  MapID : Int
  deriving DecidableEq, Repr

/-- The header `GraphicDataHeader` of each graphic in `Graphic*.bin`. -/
structure GraphicDataHeader where
  Magic : Nat × Nat
  Version : Nat
  Width : Int
  Height : Int
  Len : Int
  deriving DecidableEq, Repr

/-- A field of a Go struct as `encoding/binary` sees it: its name (`_` for a
blank field) and the number of bytes of its fixed-width type. -/
structure FieldDecl where
  name : String
  bytes : Nat
  deriving DecidableEq, Repr

/-- The width of `int32`. -/
def int32Bytes : Nat := 4

/-- The width of `byte`. -/
def byteBytes : Nat := 1

/-- The fields of `GraphicInfo`, in declaration order. -/
def GraphicInfo.fields : List FieldDecl :=
  [ ⟨"ID", int32Bytes⟩, ⟨"Addr", int32Bytes⟩, ⟨"Len", int32Bytes⟩,
    ⟨"OffX", int32Bytes⟩, ⟨"OffY", int32Bytes⟩,
    ⟨"Width", int32Bytes⟩, ⟨"Height", int32Bytes⟩,
    ⟨"GridW", byteBytes⟩, ⟨"GridH", byteBytes⟩, ⟨"Access", byteBytes⟩,
    ⟨"_", 5 * byteBytes⟩,
    ⟨"MapID", int32Bytes⟩ ]

/-- The fields of `GraphicDataHeader`, in declaration order. -/
def GraphicDataHeader.fields : List FieldDecl :=
  [ ⟨"Magic", 2 * byteBytes⟩, ⟨"Version", byteBytes⟩, ⟨"_", byteBytes⟩,
    ⟨"Width", int32Bytes⟩, ⟨"Height", int32Bytes⟩, ⟨"Len", int32Bytes⟩ ]

/-- The number of bytes a record occupies when its fields follow one another
without gaps. -/
def recordSize (fs : List FieldDecl) : Nat :=
  (fs.map FieldDecl.bytes).sum

/-- The byte offset of the first field called `name`, when there is one: the
sizes of the fields declared before it, added up. -/
def fieldOffset (name : String) : List FieldDecl → Option Nat
  | [] => none
  | f :: fs =>
    if f.name = name then some 0
    else (fieldOffset name fs).map (fun o => f.bytes + o)

/-! ## Values of `pkg` -/

/-- A colour of `image/color`, as its four channels. -/
structure Color where
  R : Nat
  G : Nat
  B : Nat
  A : Nat
  deriving DecidableEq, Repr

/-- The Go types `color.Palette` and `pkg.Palette`: a slice of colours; the
nil slice and the empty slice are both `[]`. -/
abbrev Palette := List Color

/-- The Go type `*os.File`: an open descriptor, or `none` for nil. -/
abbrev File := Option Nat

/-- The Go type `GraphicInfoIndex`, a map from an ID to a record. -/
abbrev GraphicInfoIndex := List (Int × GraphicInfo)

/-- Modelled from the spec: the struct `Graphic` is declared outside the
sources at hand. The commands read its fields `Info` and `PaletteData`; the
spec describes a decoded graphic as a pixel-index buffer plus an optional
embedded palette, empty if there is none. -/
structure Graphic where
  Info : GraphicInfo
  PaletteData : Palette
  Pixels : List Nat
  deriving DecidableEq, Repr

/-- Modelled from the spec: a frame descriptor of an anime-info record, which
references a graphic entry and carries a display duration and a positional
offset. -/
structure FrameDesc where
  GraphicID : Int
  Duration : Nat
  OffX : Int
  OffY : Int
  deriving DecidableEq, Repr

/-- Modelled from the spec: the struct `AnimeInfo` is declared outside the
sources at hand. The commands read its field `ID`; the spec describes it as
identifying an animated sprite and enumerating its frame descriptors. -/
structure AnimeInfo where
  ID : Int
  Frames : List FrameDesc
  deriving DecidableEq, Repr

/-- Modelled from the spec: the struct `Anime` is declared outside the
sources at hand. The commands read its field `Info`; the spec describes it as
a resolved sequence of frames. -/
structure Anime where
  Info : AnimeInfo
  Frames : List Graphic
  deriving DecidableEq, Repr

/-- The functions of `pkg` and of the standard library that the commands
call and whose bodies are not in the sources at hand. A function that returns
a value together with an error is a pair when the caller stores the value
whatever the error, and an `Except` when the caller looks at the value only
after a nil error. -/
structure Env where
  /-- The function `os.Open`: a descriptor, or an error and a nil file. -/
  osOpen : String → Except GoError Nat
  /-- The function `pkg.NewPaletteFromCGP`. -/
  NewPaletteFromCGP : File → Palette × Option GoError
  /-- The function `pkg.MakeGraphicInfoIndexes`: the index by ID, the index
  by map ID, an error. -/
  MakeGraphicInfoIndexes : File → GraphicInfoIndex × GraphicInfoIndex × Option GoError
  /-- The function `pkg.MakeAnimeInfoIndex`; the index is given as the
  entries a `range` loop visits, in the order it visits them. -/
  MakeAnimeInfoIndex : File → List AnimeInfo × Option GoError
  /-- The method `GraphicInfo.LoadGraphic`. -/
  LoadGraphic : GraphicInfo → File → Except GoError Graphic
  /-- The method `Graphic.SetPalette`, as the graphic it leaves behind. -/
  SetPalette : Graphic → Palette → Graphic
  /-- The method `AnimeInfo.LoadAllAnimes`. -/
  LoadAllAnimes : AnimeInfo → File → GraphicInfoIndex → File → Except GoError (List Anime)
  /-- The function `filepath.Clean`. -/
  Clean : String → String

/-- The constant `os.DevNull`. -/
def DevNull : String := "/dev/null"

/-! ## `cmd/dump_graphic.go` -/

namespace DumpGraphic

/-- The struct `dumpGraphicFlags`. -/
structure dumpGraphicFlags where
  GraphicInfoFile : String
  GraphicFile : String
  PaletteFile : String
  DryRun : Bool
  deriving DecidableEq, Repr

/-- The struct `graphicFiles`. -/
structure graphicFiles where
  Info : File
  Graphic : File
  Palette : File
  deriving DecidableEq, Repr

/-- What the command does, in program order. -/
inductive Event where
  /-- A record written by `log.Err(err).Send()`. -/
  | logErr (err : GoError)
  /-- The record `Invalid Graphic` written by `log.Warn()`. -/
  | logWarn (err : GoError)
  /-- A call `dumpGraphic(gif, files.Graphic, palette)` made by `main`. -/
  | call (gif : GraphicInfo)
  /-- The statement `go render(g)`. -/
  | render (g : Graphic)
  /-- The statement `bar.Add(1)`. -/
  | barAdd
  /-- The statement `wg.Wait()`. -/
  | wait
  deriving DecidableEq, Repr

/-- The function `openGraphicFiles`. -/
def openGraphicFiles (env : Env) (flags : dumpGraphicFlags) : graphicFiles × Option GoError :=
  match env.osOpen flags.GraphicInfoFile with
  | .error err => (⟨none, none, none⟩, some err)
  | .ok info =>
    match env.osOpen flags.GraphicFile with
    | .error err => (⟨some info, none, none⟩, some err)
    | .ok graphic =>
      -- palette file is optional
      if flags.PaletteFile = "" then (⟨some info, some graphic, none⟩, none)
      else
        match env.osOpen flags.PaletteFile with
        | .error err => (⟨some info, some graphic, none⟩, some err)
        | .ok pal => (⟨some info, some graphic, some pal⟩, none)

/-- The function `dumpGraphic`: the error it returns and what it does. -/
def dumpGraphic (env : Env) (info : GraphicInfo) (gf : File) (palette : Palette) :
    Option GoError × List Event :=
  match env.LoadGraphic info gf with
  | .error err =>
    if errorsIs err .ErrInvalidMagic || errorsIs err .ErrDecodeFailed then
      (none, [.logWarn err])
    else
      (some err, [])
  | .ok g =>
    if g.PaletteData.length = 0 then
      if palette.length = 0 then
        (some (.sentinel .ErrEmptyPalette), [])
      else
        (none, [.render (env.SetPalette g palette)])
    else
      (none, [.render g])

/-- The loop `for _, gif := range graphicIndex` of `main`, over the records in
the order the loop visits them: what it does, and whether it left `main` by
the `return` in its body. -/
def mainLoop (env : Env) (gf : File) (palette : Palette) :
    List GraphicInfo → List Event × Bool
  | [] => ([], false)
  | gif :: rest =>
    match dumpGraphic env gif gf palette with
    | (some err, evs) => (.call gif :: evs ++ [.logErr err], true)
    | (none, evs) =>
      let r := mainLoop env gf palette rest
      (.call gif :: evs ++ .barAdd :: r.1, r.2)

/-- The function `main`; `parseErr` is what `dgf.Flags().Parse` returned and
`dgf` the flags it filled in. -/
def main (env : Env) (parseErr : Option GoError) (dgf : dumpGraphicFlags) : List Event :=
  match parseErr with
  | some err => [.logErr err]
  | none =>
    match openGraphicFiles env dgf with
    | (_, some err) => [.logErr err]
    | (files, none) =>
      let pal : Palette × Option GoError :=
        if files.Palette ≠ none then env.NewPaletteFromCGP files.Palette else ([], none)
      match pal.2 with
      | some err => [.logErr err]
      | none =>
        match env.MakeGraphicInfoIndexes files.Info with
        | (_, _, some err) => [.logErr err]
        | (graphicIndex, _, none) =>
          let r := mainLoop env files.Graphic pal.1 (graphicIndex.map Prod.snd)
          if r.2 then r.1 else r.1 ++ [.wait]

/-- The path `output` opens for a record. -/
def output (dgf : dumpGraphicFlags) (gi : GraphicInfo) : String :=
  if dgf.DryRun then DevNull
  else "output/" ++ formatInt gi.ID ++ ".jpg"

/-- The records `main` passed to `dumpGraphic`, in order. -/
def calls : List Event → List GraphicInfo
  | [] => []
  | .call gif :: evs => gif :: calls evs
  | _ :: evs => calls evs

/-- The graphics handed to `render`, in order. -/
def rendered : List Event → List Graphic
  | [] => []
  | .render g :: evs => g :: rendered evs
  | _ :: evs => rendered evs

end DumpGraphic

/-! ## `pkg/utils.go` -/

/-- The struct `Resources`, without the map file and the map made from it,
which neither command opens. Every field starts at its zero value. -/
structure Resources where
  GraphicInfoFile : File := none
  GraphicIDIndex : GraphicInfoIndex := []
  GraphicMapIndex : GraphicInfoIndex := []
  GraphicFile : File := none
  PaletteFile : File := none
  Palette : Palette := []
  AnimeInfoFile : File := none
  AnimeInfoIndex : List AnimeInfo := []
  AnimeFile : File := none
  deriving DecidableEq, Repr

/-- The function `os.Open` as an assignment to a file field and an error. -/
def openFile (env : Env) (path : String) : File × Option GoError :=
  match env.osOpen path with
  | .error err => (none, some err)
  | .ok fd => (some fd, none)

/-- The method `Resources.OpenGraphicInfo`. -/
def Resources.OpenGraphicInfo (env : Env) (r : Resources) (gif : String) :
    Resources × Option GoError :=
  match openFile env gif with
  | (file, some err) => ({ r with GraphicInfoFile := file }, some err)
  | (file, none) =>
    match env.MakeGraphicInfoIndexes file with
    | (ids, maps, err) =>
      ({ r with GraphicInfoFile := file, GraphicIDIndex := ids, GraphicMapIndex := maps }, err)

/-- The method `Resources.OpenGraphic`. -/
def Resources.OpenGraphic (env : Env) (r : Resources) (gf : String) :
    Resources × Option GoError :=
  match openFile env gf with
  | (file, err) => ({ r with GraphicFile := file }, err)

/-- The method `Resources.OpenPalette`. -/
def Resources.OpenPalette (env : Env) (r : Resources) (pf : String) :
    Resources × Option GoError :=
  match openFile env pf with
  | (file, some err) => ({ r with PaletteFile := file }, some err)
  | (file, none) =>
    match env.NewPaletteFromCGP file with
    | (pal, err) => ({ r with PaletteFile := file, Palette := pal }, err)

/-- The method `Resources.OpenAnimeInfo`. -/
def Resources.OpenAnimeInfo (env : Env) (r : Resources) (aif : String) :
    Resources × Option GoError :=
  match openFile env aif with
  | (file, some err) => ({ r with AnimeInfoFile := file }, some err)
  | (file, none) =>
    match env.MakeAnimeInfoIndex file with
    | (idx, err) => ({ r with AnimeInfoFile := file, AnimeInfoIndex := idx }, err)

/-- The method `Resources.OpenAnime`. -/
def Resources.OpenAnime (env : Env) (r : Resources) (af : String) :
    Resources × Option GoError :=
  match openFile env af with
  | (file, err) => ({ r with AnimeFile := file }, err)

/-! ## `cmd/dumpanime/root.go` -/

namespace Dumpanime

/-- The struct `flags`. -/
structure flags where
  aif : String
  af : String
  gif : String
  gf : String
  pgif : String
  pgf : String
  pf : String
  outdir : String
  dr : Bool
  deriving DecidableEq, Repr

/-- What the command does, in program order. -/
inductive Event where
  /-- A record written by `log.Err(err).Send()` in the loop of `DumpAnime`. -/
  | logErr (err : GoError)
  /-- A call of `dumpAnime` made by `DumpAnime`. -/
  | call (ai : AnimeInfo)
  /-- A goroutine launched by `dumpAnime` for the sub-animation `a` at
  position `i`, with the palette it renders with and the path it opens. -/
  | spawn (a : Anime) (i : Nat) (p : Palette) (target : String)
  /-- The statement `bar.Add(1)`. -/
  | barAdd
  /-- The statement `wg.Wait()`. -/
  | wait
  deriving DecidableEq, Repr

/-- The error `errPaletteNotFound`. -/
def errPaletteNotFound : GoError := .sentinel .errPaletteNotFound

/-- The function `palette`: the palette and the error it returns. -/
def palette (env : Env) (res pres : Resources) (ai : AnimeInfo) : Palette × Option GoError :=
  -- use cgp palette
  let cgp : Palette × Option GoError :=
    if res.Palette.length > 0 then (res.Palette, none)
    else ([], some (.wrapped ("palette not found: " ++ formatInt ai.ID) errPaletteNotFound))
  -- use hidden palette
  if pres.GraphicMapIndex.length > 0 then
    match pres.GraphicMapIndex.lookup ai.ID with
    | some info =>
      match env.LoadGraphic info pres.GraphicFile with
      | .error err => ([], some err)
      | .ok pg => (pg.PaletteData, none)
    | none => cgp
  else cgp

/-- The path the goroutine of `dumpAnime` opens for the sub-animation at
position `i`. -/
def target (env : Env) (f : flags) (ai : AnimeInfo) (i : Nat) : String :=
  if f.dr then DevNull
  else env.Clean f.outdir ++ "/" ++ formatInt ai.ID ++ "-" ++ formatInt (i : Int) ++ ".gif"

/-- The loop `for i, a := range animes` of `dumpAnime`, from position `i`
on. -/
def spawnAll (env : Env) (f : flags) (ai : AnimeInfo) (p : Palette) :
    Nat → List Anime → List Event
  | _, [] => []
  | i, a :: rest => .spawn a i p (target env f ai i) :: spawnAll env f ai p (i + 1) rest

/-- The function `dumpAnime`: the error it returns and what it does. The
goroutines it launches write to its result variable; the value returned is
the one the function itself assigned. -/
def dumpAnime (env : Env) (f : flags) (ai : AnimeInfo) (af : File) (idx : GraphicInfoIndex)
    (gf : File) (p : Palette) : Option GoError × List Event :=
  match env.LoadAllAnimes ai af idx gf with
  | .error err => (some err, [])
  | .ok animes => (none, spawnAll env f ai p 0 animes)

/-- The state in which the loop of `DumpAnime` ends: the variable `err`, what
was done, and whether the loop left the function by the `return` in its
body. -/
structure LoopResult where
  err : Option GoError
  events : List Event
  returned : Bool
  deriving DecidableEq, Repr

/-- The record `log.Err(err).Send()` writes when `err` is not nil. -/
def logIfErr : Option GoError → List Event
  | some err => [.logErr err]
  | none => []

/-- The loop `for _, ai := range res.AnimeInfoIndex` of `DumpAnime`, over the
entries in the order the loop visits them, from the value `err` has when an
iteration starts. -/
def animeLoop (env : Env) (f : flags) (res pres : Resources) :
    List AnimeInfo → Option GoError → LoopResult
  | [], err => ⟨err, [], false⟩
  | ai :: rest, _ =>
    match palette env res pres ai with
    | (_, some err) => ⟨some err, [], true⟩
    | (p, none) =>
      let d := dumpAnime env f ai res.AnimeFile res.GraphicIDIndex res.GraphicFile p
      let r := animeLoop env f res pres rest d.1
      ⟨r.err, .call ai :: d.2 ++ logIfErr d.1 ++ .barAdd :: r.events, r.returned⟩

/-- The statements of `DumpAnime` that open the two resource sets: the sets
and the first error. -/
def openResources (env : Env) (f : flags) : Resources × Resources × Option GoError :=
  let res : Resources := {}
  let pres : Resources := {}
  match res.OpenAnimeInfo env f.aif with
  | (res, some err) => (res, pres, some err)
  | (res, none) =>
  match res.OpenAnime env f.af with
  | (res, some err) => (res, pres, some err)
  | (res, none) =>
  match res.OpenGraphicInfo env f.gif with
  | (res, some err) => (res, pres, some err)
  | (res, none) =>
  match res.OpenGraphic env f.gf with
  | (res, some err) => (res, pres, some err)
  | (res, none) =>
  match res.OpenPalette env f.pf with
  | (res, some err) => (res, pres, some err)
  | (res, none) =>
  match (if f.pgif ≠ "" then pres.OpenGraphicInfo env f.pgif else (pres, none)) with
  | (pres, some err) => (res, pres, some err)
  | (pres, none) =>
  match (if f.pgf ≠ "" then pres.OpenGraphic env f.pgf else (pres, none)) with
  | (pres, some err) => (res, pres, some err)
  | (pres, none) => (res, pres, none)

/-- The function `DumpAnime`: the error it returns and what it does;
`parseErr` is what `f.Flags().Parse(args)` returned and `f` the flags it
filled in. The argument `res.GraphicResource.IDx` of the call of `dumpAnime`
is the index by ID of `res`. -/
def DumpAnime (env : Env) (parseErr : Option GoError) (f : flags) :
    Option GoError × List Event :=
  match parseErr with
  | some err => (some err, [])
  | none =>
    match openResources env f with
    | (_, _, some err) => (some err, [])
    | (res, pres, none) =>
      let r := animeLoop env f res pres res.AnimeInfoIndex none
      if r.returned then (r.err, r.events) else (r.err, r.events ++ [.wait])

/-- The entries `DumpAnime` passed to `dumpAnime`, in order. -/
def calls : List Event → List AnimeInfo
  | [] => []
  | .call ai :: evs => ai :: calls evs
  | _ :: evs => calls evs

end Dumpanime

/-! ## Sample resources

A small set of files on which the commands can be run by evaluation. -/

namespace Sample

/-- A graphic-info record with the given ID and map ID. -/
def info (id mapID : Int) : GraphicInfo :=
  ⟨id, 16, 20, 0, 0, 2, 2, 1, 1, 0, mapID⟩

/-- A one-colour palette. -/
def red : Palette := [⟨255, 0, 0, 255⟩]

/-- Another one-colour palette. -/
def blue : Palette := [⟨0, 0, 255, 255⟩]

/-- Record 1: its graphic carries a palette of its own. -/
def g1 : GraphicInfo := info 1 0

/-- Record 2: its graphic carries no palette. -/
def g2 : GraphicInfo := info 2 0

/-- Record 3: its payload does not start with the magic bytes. -/
def g3 : GraphicInfo := info 3 0

/-- Record 4: its payload cannot be read. -/
def g4 : GraphicInfo := info 4 0

/-- The overlay record for anime 7: a graphic with a palette. -/
def ov7 : GraphicInfo := info 107 7

/-- The overlay record for anime 9: a graphic that cannot be read. -/
def ov9 : GraphicInfo := info 109 9

/-- The overlay record for anime 10: a graphic without a palette. -/
def ov10 : GraphicInfo := info 110 10

/-- Anime 7. -/
def a7 : AnimeInfo := ⟨7, [⟨1, 100, 0, 0⟩]⟩

/-- Anime 8, one of whose frames is not in the graphic index. -/
def a8 : AnimeInfo := ⟨8, [⟨99, 100, 0, 0⟩]⟩

/-- Anime 9. -/
def a9 : AnimeInfo := ⟨9, [⟨2, 100, 0, 0⟩]⟩

/-- Anime 10. -/
def a10 : AnimeInfo := ⟨10, [⟨1, 100, 0, 0⟩]⟩

/-- A read error. -/
def readErr : GoError := .sentinel (.other 5)

/-- The error of a payload with the wrong magic bytes, wrapped with a
message. -/
def magicErr : GoError := .wrapped "graphic 3" (.sentinel .ErrInvalidMagic)

/-- The error of a frame that is not in the graphic index. -/
def frameErr : GoError := .wrapped "frame 99" (.sentinel (.other 9))

/-- The files of the sample, by name. -/
def osOpen (path : String) : Except GoError Nat :=
  if path = "anime_info.bin" then .ok 1
  else if path = "anime.bin" then .ok 2
  else if path = "graphic_info.bin" then .ok 3
  else if path = "graphic.bin" then .ok 4
  else if path = "palette.cgp" then .ok 5
  else if path = "pgraphic_info.bin" then .ok 6
  else if path = "pgraphic.bin" then .ok 7
  else if path = "empty.cgp" then .ok 8
  else if path = "anime_info_9.bin" then .ok 9
  else if path = "anime_info_last.bin" then .ok 10
  else if path = "anime_info_3.bin" then .ok 11
  else .error (.sentinel (.other 2))

/-- The graphics of the sample, by the ID of the record. -/
def LoadGraphic (gi : GraphicInfo) (_ : File) : Except GoError Graphic :=
  if gi.ID = 1 then .ok ⟨gi, blue, [0, 0, 0, 0]⟩
  else if gi.ID = 2 then .ok ⟨gi, [], [0, 0, 0, 0]⟩
  else if gi.ID = 3 then .error magicErr
  else if gi.ID = 107 then .ok ⟨gi, blue, []⟩
  else if gi.ID = 110 then .ok ⟨gi, [], [0, 0, 0, 0]⟩
  else .error readErr

/-- The sample environment. -/
def env : Env where
  osOpen := osOpen
  NewPaletteFromCGP := fun file => if file = some 5 then (red, none) else ([], none)
  MakeGraphicInfoIndexes := fun file =>
    if file = some 6 then ([], [(7, ov7), (9, ov9), (10, ov10)], none)
    else ([(1, g1), (2, g2), (3, g3), (4, g4)], [], none)
  MakeAnimeInfoIndex := fun file =>
    if file = some 9 then ([a7, a9, a8], none)
    else if file = some 10 then ([a7, a8], none)
    else if file = some 11 then ([a7, a8, a10], none)
    else ([a8, a7], none)
  LoadGraphic := LoadGraphic
  SetPalette := fun g p => { g with PaletteData := p }
  LoadAllAnimes := fun ai _ _ _ =>
    if ai.ID = 8 then .error frameErr else .ok [⟨ai, []⟩, ⟨ai, []⟩]
  Clean := fun dir => dir

/-- An environment in which no file opens and no index is made: neither
command gets as far as its loop. -/
def failingEnv : Env where
  osOpen := fun _ => .error readErr
  NewPaletteFromCGP := fun _ => ([], some readErr)
  MakeGraphicInfoIndexes := fun _ => ([], [], some readErr)
  MakeAnimeInfoIndex := fun _ => ([], some readErr)
  LoadGraphic := fun _ _ => .error readErr
  SetPalette := fun g _ => g
  LoadAllAnimes := fun _ _ _ _ => .error readErr
  Clean := fun dir => dir

/-- Flags of dump-anime: every file of the sample, the overlay set
included; the anime index is `[a8, a7]`. -/
def flags : Dumpanime.flags :=
  ⟨"anime_info.bin", "anime.bin", "graphic_info.bin", "graphic.bin",
   "pgraphic_info.bin", "pgraphic.bin", "palette.cgp", "output", false⟩

/-- The same flags with the anime index `[a7, a9, a8]`. -/
def flags9 : Dumpanime.flags := { flags with aif := "anime_info_9.bin" }

/-- The same flags with the anime index `[a7, a8]`. -/
def flagsLast : Dumpanime.flags := { flags with aif := "anime_info_last.bin" }

/-- Flags of dump-anime with an empty palette file; the anime index is
`[a7, a8, a10]`, and the overlay set has no record for anime 8. -/
def flagsBare : Dumpanime.flags :=
  { flags with aif := "anime_info_3.bin", pf := "empty.cgp" }

/-- The resource set `res` that `DumpAnime` builds from `flagsBare`. -/
def resBare : Resources := (Dumpanime.openResources env flagsBare).1

/-- The resource set `res` that `DumpAnime` builds from `flags9`. -/
def res9 : Resources := (Dumpanime.openResources env flags9).1

/-- The resource set `res` that `DumpAnime` builds from `flagsLast`. -/
def resLast : Resources := (Dumpanime.openResources env flagsLast).1

/-- The resource set `res` that `DumpAnime` builds from `flags`. -/
def res : Resources := (Dumpanime.openResources env flags).1

/-- The resource set `pres` that `DumpAnime` builds from `flags`, and from
the other flags of the sample, which name the same overlay files. -/
def pres : Resources := (Dumpanime.openResources env flags).2.1

/-- Flags of dump-graphic outside dry-run. -/
def dgf : DumpGraphic.dumpGraphicFlags :=
  ⟨"graphic_info.bin", "graphic.bin", "palette.cgp", false⟩

end Sample

/-! ## Printing integers: lemmas -/

/-- The number a string of decimal digits stands for. -/
def parseNat (cs : List Char) : Nat :=
  cs.foldl (fun acc c => acc * 10 + (c.toNat - 48)) 0

theorem digitChar_val : ∀ k, k < 10 → (Nat.digitChar k).toNat - 48 = k := by decide

theorem digitChar_ne_minus : ∀ k, k < 10 → Nat.digitChar k ≠ '-' := by decide

theorem parseNat_snoc (cs : List Char) (c : Char) :
    parseNat (cs ++ [c]) = parseNat cs * 10 + (c.toNat - 48) := by
  simp [parseNat, List.foldl_append]

/-- What `Nat.toDigitsCore` puts in front of its accumulator, given fuel
enough: a non-empty string of digits, without a minus sign, that reads back
as the number. -/
theorem toDigitsCore_spec (fuel : Nat) :
    ∀ (n : Nat) (acc : List Char), n < fuel →
      ∃ ds, Nat.toDigitsCore 10 fuel n acc = ds ++ acc ∧ ds ≠ [] ∧ '-' ∉ ds ∧ parseNat ds = n := by
  induction fuel with
  | zero => intro n acc h; omega
  | succ fuel ih =>
    intro n acc h
    have hd : n % 10 < 10 := Nat.mod_lt _ (by decide)
    by_cases hq : n / 10 = 0
    · refine ⟨[Nat.digitChar (n % 10)], ?_, by simp, ?_, ?_⟩
      · simp [Nat.toDigitsCore, hq]
      · simpa using (digitChar_ne_minus _ hd).symm
      · have := parseNat_snoc [] (Nat.digitChar (n % 10))
        simp only [List.nil_append] at this
        rw [this, digitChar_val _ hd]
        simp [parseNat]
        omega
    · have hlt : n / 10 < fuel := by omega
      obtain ⟨ds, hds, -, hm, hp⟩ := ih (n / 10) (Nat.digitChar (n % 10) :: acc) hlt
      refine ⟨ds ++ [Nat.digitChar (n % 10)], ?_, by simp, ?_, ?_⟩
      · simp [Nat.toDigitsCore, hq, hds]
      · simp only [List.mem_append, List.mem_singleton, not_or]
        exact ⟨hm, (digitChar_ne_minus _ hd).symm⟩
      · rw [parseNat_snoc, hp, digitChar_val _ hd]
        omega

theorem parseNat_toDigits (n : Nat) : parseNat (Nat.toDigits 10 n) = n := by
  obtain ⟨ds, hds, -, -, hp⟩ := toDigitsCore_spec (n + 1) n [] (Nat.lt_succ_self n)
  simp only [Nat.toDigits, hds, List.append_nil]
  exact hp

theorem minus_not_mem_toDigits (n : Nat) : '-' ∉ Nat.toDigits 10 n := by
  obtain ⟨ds, hds, -, hm, -⟩ := toDigitsCore_spec (n + 1) n [] (Nat.lt_succ_self n)
  simp only [Nat.toDigits, hds, List.append_nil]
  exact hm

theorem toDigits_injective {a b : Nat} (h : Nat.toDigits 10 a = Nat.toDigits 10 b) : a = b := by
  have := congrArg parseNat h
  simpa [parseNat_toDigits] using this

theorem formatInt_data (n : Int) :
    (formatInt n).data =
      if n < 0 then '-' :: Nat.toDigits 10 n.natAbs else Nat.toDigits 10 n.natAbs := by
  unfold formatInt
  split <;> simp [String.data_append]

theorem formatInt_nat_data (i : Nat) : (formatInt (i : Int)).data = Nat.toDigits 10 i := by
  rw [formatInt_data]
  simp

theorem formatInt_injective {a b : Int} (h : formatInt a = formatInt b) : a = b := by
  have hd := congrArg String.data h
  rw [formatInt_data, formatInt_data] at hd
  by_cases ha : a < 0 <;> by_cases hb : b < 0 <;> simp only [ha, hb, if_true, if_false] at hd
  · have := toDigits_injective (List.cons_injective hd)
    omega
  · exact absurd (hd ▸ List.mem_cons_self _ _) (minus_not_mem_toDigits _)
  · exact absurd (hd ▸ List.mem_cons_self _ _) (minus_not_mem_toDigits _)
  · have := toDigits_injective hd
    omega

/-! ## The loop of `main` -/

namespace DumpGraphic

theorem calls_append (xs ys : List Event) : calls (xs ++ ys) = calls xs ++ calls ys := by
  induction xs with
  | nil => rfl
  | cons x xs ih => cases x <;> simp [calls, ih]

theorem rendered_append (xs ys : List Event) :
    rendered (xs ++ ys) = rendered xs ++ rendered ys := by
  induction xs with
  | nil => rfl
  | cons x xs ih => cases x <;> simp [rendered, ih]

/-- The events of `dumpGraphic` hold no call of `dumpGraphic`. -/
theorem calls_dumpGraphic (env : Env) (info : GraphicInfo) (gf : File) (palette : Palette) :
    calls (dumpGraphic env info gf palette).2 = [] := by
  unfold dumpGraphic
  split
  · split <;> rfl
  · split
    · split <;> rfl
    · rfl

/-- On a failed load `dumpGraphic` hands nothing to `render` and returns
nil or the very error of the load; it makes no error of its own. -/
theorem dumpGraphic_load_error (env : Env) (info : GraphicInfo) (gf : File) (palette : Palette)
    (err : GoError) (hload : env.LoadGraphic info gf = .error err) :
    rendered (dumpGraphic env info gf palette).2 = [] ∧
    ((dumpGraphic env info gf palette).1 = none ∨
      (dumpGraphic env info gf palette).1 = some err) := by
  unfold dumpGraphic
  rw [hload]
  by_cases h : (errorsIs err .ErrInvalidMagic || errorsIs err .ErrDecodeFailed) = true
  · simp [h, rendered]
  · simp [h, rendered]

/-- A call of `dumpGraphic` that returns an error has done nothing: no
warning, no graphic handed to `render`. -/
theorem dumpGraphic_error_events (env : Env) (info : GraphicInfo) (gf : File)
    (palette : Palette) (err : GoError)
    (h : (dumpGraphic env info gf palette).1 = some err) :
    (dumpGraphic env info gf palette).2 = [] := by
  unfold dumpGraphic at h ⊢
  split at h
  · split at h
    · simp at h
    · simp [*]
  · split at h
    · split at h
      · simp [*]
      · simp at h
    · simp at h

/-- One turn of the loop after `dumpGraphic` returned nil. -/
theorem mainLoop_cons_nil (env : Env) (gf : File) (palette : Palette) (gif : GraphicInfo)
    (rest : List GraphicInfo) (evs : List Event)
    (h : dumpGraphic env gif gf palette = (none, evs)) :
    mainLoop env gf palette (gif :: rest) =
      (.call gif :: evs ++ .barAdd :: (mainLoop env gf palette rest).1,
        (mainLoop env gf palette rest).2) := by
  simp [mainLoop, h]

/-- One turn of the loop after `dumpGraphic` returned an error. -/
theorem mainLoop_cons_err (env : Env) (gf : File) (palette : Palette) (gif : GraphicInfo)
    (rest : List GraphicInfo) (err : GoError) (evs : List Event)
    (h : dumpGraphic env gif gf palette = (some err, evs)) :
    mainLoop env gf palette (gif :: rest) = (.call gif :: evs ++ [.logErr err], true) := by
  simp [mainLoop, h]

/-- A loop that did not return on the records `pre` goes on with what
follows them. -/
theorem mainLoop_append (env : Env) (gf : File) (palette : Palette) (l : List GraphicInfo) :
    ∀ pre : List GraphicInfo, (mainLoop env gf palette pre).2 = false →
      mainLoop env gf palette (pre ++ l) =
        ((mainLoop env gf palette pre).1 ++ (mainLoop env gf palette l).1,
          (mainLoop env gf palette l).2) := by
  intro pre
  induction pre with
  | nil => intro _; simp [mainLoop]
  | cons gif pre ih =>
    intro h
    rcases hd : dumpGraphic env gif gf palette with ⟨_ | err, evs⟩
    · rw [mainLoop_cons_nil env gf palette gif pre evs hd] at h
      rw [List.cons_append, mainLoop_cons_nil env gf palette gif (pre ++ l) evs hd,
        mainLoop_cons_nil env gf palette gif pre evs hd, ih h]
      simp
    · rw [mainLoop_cons_err env gf palette gif pre err evs hd] at h
      simp at h

/-- A loop that did not return passed every record to `dumpGraphic`. -/
theorem calls_mainLoop (env : Env) (gf : File) (palette : Palette) :
    ∀ l : List GraphicInfo, (mainLoop env gf palette l).2 = false →
      calls (mainLoop env gf palette l).1 = l := by
  intro l
  induction l with
  | nil => intro _; rfl
  | cons gif l ih =>
    intro h
    rcases hd : dumpGraphic env gif gf palette with ⟨_ | err, evs⟩
    · rw [mainLoop_cons_nil env gf palette gif l evs hd] at h ⊢
      have hc : calls evs = [] := by
        have := calls_dumpGraphic env gif gf palette
        rwa [hd] at this
      rw [calls_append]
      simp [calls, hc, ih h]
    · rw [mainLoop_cons_err env gf palette gif l err evs hd] at h
      simp at h

end DumpGraphic

/-! ## The loop of `DumpAnime` -/

namespace Dumpanime

theorem animeCalls_append (xs ys : List Event) : calls (xs ++ ys) = calls xs ++ calls ys := by
  induction xs with
  | nil => rfl
  | cons x xs ih => cases x <;> simp [calls, ih]

theorem animeCalls_spawnAll (env : Env) (f : flags) (ai : AnimeInfo) (p : Palette)
    (animes : List Anime) : ∀ i : Nat, calls (spawnAll env f ai p i animes) = [] := by
  induction animes with
  | nil => intro i; rfl
  | cons a animes ih => intro i; simp [spawnAll, calls, ih]

/-- The events of `dumpAnime` hold no call of `dumpAnime`. -/
theorem animeCalls_dumpAnime (env : Env) (f : flags) (ai : AnimeInfo) (af : File)
    (idx : GraphicInfoIndex) (gf : File) (p : Palette) :
    calls (dumpAnime env f ai af idx gf p).2 = [] := by
  unfold dumpAnime
  split
  · rfl
  · exact animeCalls_spawnAll env f ai p _ 0

theorem animeCalls_logIfErr (err : Option GoError) : calls (logIfErr err) = [] := by
  cases err <;> rfl

/-- One turn of the loop after `palette` returned a palette. -/
theorem animeLoop_cons_ok (env : Env) (f : flags) (res pres : Resources) (ai : AnimeInfo)
    (rest : List AnimeInfo) (err0 : Option GoError) (p : Palette)
    (h : palette env res pres ai = (p, none)) :
    animeLoop env f res pres (ai :: rest) err0 =
      ⟨(animeLoop env f res pres rest
          (dumpAnime env f ai res.AnimeFile res.GraphicIDIndex res.GraphicFile p).1).err,
        .call ai :: (dumpAnime env f ai res.AnimeFile res.GraphicIDIndex res.GraphicFile p).2 ++
          logIfErr (dumpAnime env f ai res.AnimeFile res.GraphicIDIndex res.GraphicFile p).1 ++
          .barAdd :: (animeLoop env f res pres rest
            (dumpAnime env f ai res.AnimeFile res.GraphicIDIndex res.GraphicFile p).1).events,
        (animeLoop env f res pres rest
          (dumpAnime env f ai res.AnimeFile res.GraphicIDIndex res.GraphicFile p).1).returned⟩ := by
  simp [animeLoop, h]

/-- One turn of the loop after `palette` returned an error. -/
theorem animeLoop_cons_err (env : Env) (f : flags) (res pres : Resources) (ai : AnimeInfo)
    (rest : List AnimeInfo) (err0 : Option GoError) (p : Palette) (err : GoError)
    (h : palette env res pres ai = (p, some err)) :
    animeLoop env f res pres (ai :: rest) err0 = ⟨some err, [], true⟩ := by
  simp [animeLoop, h]

/-- A loop that did not return on the entries `pre` goes on with what
follows them, from the value `err` then has. -/
theorem animeLoop_append (env : Env) (f : flags) (res pres : Resources) (l : List AnimeInfo) :
    ∀ (pre : List AnimeInfo) (err0 : Option GoError),
      (animeLoop env f res pres pre err0).returned = false →
      animeLoop env f res pres (pre ++ l) err0 =
        ⟨(animeLoop env f res pres l (animeLoop env f res pres pre err0).err).err,
          (animeLoop env f res pres pre err0).events ++
            (animeLoop env f res pres l (animeLoop env f res pres pre err0).err).events,
          (animeLoop env f res pres l (animeLoop env f res pres pre err0).err).returned⟩ := by
  intro pre
  induction pre with
  | nil => intro err0 _; simp [animeLoop]
  | cons ai pre ih =>
    intro err0 h
    rcases hp : palette env res pres ai with ⟨p, _ | err⟩
    · rw [animeLoop_cons_ok env f res pres ai pre err0 p hp] at h
      rw [List.cons_append, animeLoop_cons_ok env f res pres ai (pre ++ l) err0 p hp,
        animeLoop_cons_ok env f res pres ai pre err0 p hp, ih _ h]
      simp
    · rw [animeLoop_cons_err env f res pres ai pre err0 p err hp] at h
      simp at h

/-- When `palette` returns a palette for every entry, the loop does not
return and passes every entry to `dumpAnime`, once and in order. -/
theorem animeLoop_all_resolved (env : Env) (f : flags) (res pres : Resources) :
    ∀ (l : List AnimeInfo) (err0 : Option GoError),
      (∀ ai ∈ l, (palette env res pres ai).2 = none) →
      (animeLoop env f res pres l err0).returned = false ∧
        calls (animeLoop env f res pres l err0).events = l := by
  intro l
  induction l with
  | nil => intro err0 _; exact ⟨rfl, rfl⟩
  | cons ai l ih =>
    intro err0 h
    have hai := h ai (List.mem_cons_self _ _)
    have hp : palette env res pres ai = ((palette env res pres ai).1, none) := by
      rw [← hai]
    obtain ⟨h1, h2⟩ := ih
      (dumpAnime env f ai res.AnimeFile res.GraphicIDIndex res.GraphicFile
        (palette env res pres ai).1).1
      (fun a ha => h a (List.mem_cons_of_mem _ ha))
    rw [animeLoop_cons_ok env f res pres ai l err0 _ hp]
    refine ⟨h1, ?_⟩
    simp only [animeCalls_append]
    simp [calls, animeCalls_dumpAnime, animeCalls_logIfErr, h2]

/-- A loop that did not return passed every entry to `dumpAnime`. -/
theorem animeCalls_animeLoop (env : Env) (f : flags) (res pres : Resources) :
    ∀ (l : List AnimeInfo) (err0 : Option GoError),
      (animeLoop env f res pres l err0).returned = false →
      calls (animeLoop env f res pres l err0).events = l := by
  intro l
  induction l with
  | nil => intro err0 _; rfl
  | cons ai l ih =>
    intro err0 h
    rcases hp : palette env res pres ai with ⟨p, _ | err⟩
    · rw [animeLoop_cons_ok env f res pres ai l err0 p hp] at h ⊢
      simp only [animeCalls_append]
      simp [calls, animeCalls_dumpAnime, animeCalls_logIfErr, ih _ h]
    · rw [animeLoop_cons_err env f res pres ai l err0 p err hp] at h
      simp at h

/-- The function `DumpAnime` once the flags are parsed and the resources
open: the loop, then `wg.Wait()` unless the loop returned. -/
theorem DumpAnime_of_open (env : Env) (f : flags) (res pres : Resources)
    (hopen : openResources env f = (res, pres, none)) :
    DumpAnime env none f =
      if (animeLoop env f res pres res.AnimeInfoIndex none).returned then
        ((animeLoop env f res pres res.AnimeInfoIndex none).err,
          (animeLoop env f res pres res.AnimeInfoIndex none).events)
      else
        ((animeLoop env f res pres res.AnimeInfoIndex none).err,
          (animeLoop env f res pres res.AnimeInfoIndex none).events ++ [.wait]) := by
  simp [DumpAnime, hopen]

/-- When every palette resolves, the error `DumpAnime` returns is the one
`dumpAnime` returned for the entry visited last. -/
theorem DumpAnime_err_last (env : Env) (f : flags) (res pres : Resources)
    (pre : List AnimeInfo) (ai : AnimeInfo)
    (hopen : openResources env f = (res, pres, none))
    (hidx : res.AnimeInfoIndex = pre ++ [ai])
    (hres : ∀ a ∈ res.AnimeInfoIndex, (palette env res pres a).2 = none) :
    (DumpAnime env none f).1 =
      (dumpAnime env f ai res.AnimeFile res.GraphicIDIndex res.GraphicFile
        (palette env res pres ai).1).1 := by
  have hpre : ∀ a ∈ pre, (palette env res pres a).2 = none := fun a ha =>
    hres a (by rw [hidx]; exact List.mem_append_left _ ha)
  have hai : (palette env res pres ai).2 = none :=
    hres ai (by rw [hidx]; simp)
  have hp : palette env res pres ai = ((palette env res pres ai).1, none) := by
    rw [← hai]
  have hfst : (DumpAnime env none f).1 = (animeLoop env f res pres res.AnimeInfoIndex none).err := by
    rw [DumpAnime_of_open env f res pres hopen]
    split <;> rfl
  rw [hfst, hidx,
    animeLoop_append env f res pres [ai] pre none (animeLoop_all_resolved env f res pres pre none hpre).1,
    animeLoop_cons_ok env f res pres ai [] _ _ hp]
  rfl

/-- When the loop reaches an entry for which `palette` returns an error,
`DumpAnime` returns that error without `wg.Wait()`, having passed to
`dumpAnime` the entries before that one and no other. -/
theorem DumpAnime_palette_error (env : Env) (f : flags) (res pres : Resources)
    (pre : List AnimeInfo) (ai : AnimeInfo) (rest : List AnimeInfo) (err : GoError)
    (hopen : openResources env f = (res, pres, none))
    (hidx : res.AnimeInfoIndex = pre ++ ai :: rest)
    (hreach : (animeLoop env f res pres pre none).returned = false)
    (hpal : (palette env res pres ai).2 = some err) :
    DumpAnime env none f = (some err, (animeLoop env f res pres pre none).events) ∧
    calls (DumpAnime env none f).2 = pre := by
  have hp : palette env res pres ai = ((palette env res pres ai).1, some err) := by
    rw [← hpal]
  have hd : DumpAnime env none f = (some err, (animeLoop env f res pres pre none).events) := by
    rw [DumpAnime_of_open env f res pres hopen, hidx,
      animeLoop_append env f res pres (ai :: rest) pre none hreach,
      animeLoop_cons_err env f res pres ai rest _ _ err hp]
    simp
  refine ⟨hd, ?_⟩
  rw [hd]
  exact animeCalls_animeLoop env f res pres pre none hreach

end Dumpanime

/-! ## Paths -/

/-- Two lists that agree and are each cut at the first occurrence of `a`
have equal parts. -/
theorem split_at_first {a : Char} :
    ∀ (l₁ l₂ r₁ r₂ : List Char), a ∉ l₁ → a ∉ l₂ →
      l₁ ++ a :: r₁ = l₂ ++ a :: r₂ → l₁ = l₂ ∧ r₁ = r₂ := by
  intro l₁
  induction l₁ with
  | nil =>
    intro l₂ r₁ r₂ _ h₂ h
    cases l₂ with
    | nil => simpa using h
    | cons y l₂ =>
      simp only [List.nil_append, List.cons_append, List.cons.injEq] at h
      exact absurd (h.1 ▸ List.mem_cons_self _ _) h₂
  | cons x l₁ ih =>
    intro l₂ r₁ r₂ h₁ h₂ h
    cases l₂ with
    | nil =>
      simp only [List.nil_append, List.cons_append, List.cons.injEq] at h
      exact absurd (h.1 ▸ List.mem_cons_self _ _) h₁
    | cons y l₂ =>
      simp only [List.cons_append, List.cons.injEq] at h
      obtain ⟨hl, hr⟩ := ih l₂ r₁ r₂ (fun hm => h₁ (List.mem_cons_of_mem _ hm))
        (fun hm => h₂ (List.mem_cons_of_mem _ hm)) h.2
      exact ⟨by rw [h.1, hl], hr⟩

/-- Two lists that agree and are each cut at the last occurrence of `a`
have equal parts. -/
theorem split_at_last {a : Char} (l₁ l₂ r₁ r₂ : List Char) (h₁ : a ∉ r₁) (h₂ : a ∉ r₂)
    (h : l₁ ++ a :: r₁ = l₂ ++ a :: r₂) : l₁ = l₂ ∧ r₁ = r₂ := by
  have hrev := congrArg List.reverse h
  simp only [List.reverse_append, List.reverse_cons, List.append_assoc,
    List.singleton_append] at hrev
  obtain ⟨hr, hl⟩ := split_at_first r₁.reverse r₂.reverse l₁.reverse l₂.reverse
    (by simpa using h₁) (by simpa using h₂) hrev
  exact ⟨List.reverse_injective hl, List.reverse_injective hr⟩

/-- The text `<id>-<i>` determines the integer `id` and the natural number
`i`. -/
theorem id_dash_index_injective {a b : Int} {i j : Nat}
    (h : (formatInt a).data ++ '-' :: (formatInt (i : Int)).data =
      (formatInt b).data ++ '-' :: (formatInt (j : Int)).data) : a = b ∧ i = j := by
  rw [formatInt_nat_data, formatInt_nat_data] at h
  obtain ⟨hl, hr⟩ := split_at_last _ _ _ _ (minus_not_mem_toDigits i)
    (minus_not_mem_toDigits j) h
  exact ⟨formatInt_injective (String.ext hl), toDigits_injective hr⟩

/-! ## The claims -/

/-- C1: when `LoadGraphic` fails on a record with an error that is or wraps
`ErrInvalidMagic` or `ErrDecodeFailed`, `dumpGraphic` returns nil after a
warning and hands nothing to `render`; the loop of `main`, having reached
that record, ticks the bar and goes on with the records that follow, so the
records passed to `dumpGraphic` are those before it, the record itself, and
whatever the loop passes from the rest. -/
theorem dumpGraphic_invalid_skipped (env : Env) (gf : File) (palette : Palette)
    (pre : List GraphicInfo) (gif : GraphicInfo) (rest : List GraphicInfo) (err : GoError)
    (hreach : (DumpGraphic.mainLoop env gf palette pre).2 = false)
    (hload : env.LoadGraphic gif gf = .error err)
    (his : errorsIs err .ErrInvalidMagic = true ∨ errorsIs err .ErrDecodeFailed = true) :
    DumpGraphic.dumpGraphic env gif gf palette = (none, [DumpGraphic.Event.logWarn err]) ∧
    DumpGraphic.rendered (DumpGraphic.dumpGraphic env gif gf palette).2 = [] ∧
    DumpGraphic.mainLoop env gf palette (pre ++ gif :: rest) =
      ((DumpGraphic.mainLoop env gf palette pre).1 ++
          DumpGraphic.Event.call gif :: DumpGraphic.Event.logWarn err ::
            DumpGraphic.Event.barAdd :: (DumpGraphic.mainLoop env gf palette rest).1,
        (DumpGraphic.mainLoop env gf palette rest).2) ∧
    DumpGraphic.calls (DumpGraphic.mainLoop env gf palette (pre ++ gif :: rest)).1 =
      pre ++ gif :: DumpGraphic.calls (DumpGraphic.mainLoop env gf palette rest).1 := by
  have hd : DumpGraphic.dumpGraphic env gif gf palette =
      (none, [DumpGraphic.Event.logWarn err]) := by
    unfold DumpGraphic.dumpGraphic
    rw [hload]
    have : (errorsIs err .ErrInvalidMagic || errorsIs err .ErrDecodeFailed) = true := by
      rcases his with h | h <;> simp [h]
    simp [this]
  have hl : DumpGraphic.mainLoop env gf palette (pre ++ gif :: rest) =
      ((DumpGraphic.mainLoop env gf palette pre).1 ++
          DumpGraphic.Event.call gif :: DumpGraphic.Event.logWarn err ::
            DumpGraphic.Event.barAdd :: (DumpGraphic.mainLoop env gf palette rest).1,
        (DumpGraphic.mainLoop env gf palette rest).2) := by
    rw [DumpGraphic.mainLoop_append env gf palette (gif :: rest) pre hreach,
      DumpGraphic.mainLoop_cons_nil env gf palette gif rest _ hd]
    simp
  refine ⟨hd, ?_, hl, ?_⟩
  · rw [hd]; rfl
  · rw [hl]
    simp only [DumpGraphic.calls_append, DumpGraphic.calls_mainLoop env gf palette pre hreach]
    simp [DumpGraphic.calls]

theorem dumpGraphic_invalid_skipped_witness :
    (DumpGraphic.mainLoop Sample.env (some 4) Sample.red [Sample.g1]).2 = false ∧
    Sample.env.LoadGraphic Sample.g3 (some 4) = .error Sample.magicErr ∧
    errorsIs Sample.magicErr .ErrInvalidMagic = true ∧
    DumpGraphic.calls (DumpGraphic.mainLoop Sample.env (some 4) Sample.red
        ([Sample.g1] ++ Sample.g3 :: [Sample.g2])).1 =
      [Sample.g1] ++ Sample.g3 ::
        DumpGraphic.calls (DumpGraphic.mainLoop Sample.env (some 4) Sample.red [Sample.g2]).1 :=
  ⟨by decide, rfl, by decide,
    (dumpGraphic_invalid_skipped Sample.env (some 4) Sample.red [Sample.g1] Sample.g3
      [Sample.g2] Sample.magicErr (by decide) rfl (Or.inl (by decide))).2.2.2⟩

/-- C3: when `LoadGraphic` succeeds with the graphic `g`, `dumpGraphic`
prefers the embedded palette to the supplied one: a non-empty embedded
palette has `g` itself handed to `render` and nil returned; an empty one
with a non-empty supplied palette `p` has `g` after `SetPalette(p)` handed
to `render` and nil returned; with both empty the result is
`ErrEmptyPalette` and nothing is handed to `render`. So on a successful load
the result is `ErrEmptyPalette` exactly when both palettes are empty. -/
theorem dumpGraphic_palette_precedence (env : Env) (info : GraphicInfo) (gf : File)
    (p : Palette) (g : Graphic) (hload : env.LoadGraphic info gf = .ok g) :
    (g.PaletteData ≠ [] →
      DumpGraphic.dumpGraphic env info gf p = (none, [DumpGraphic.Event.render g])) ∧
    (g.PaletteData = [] → p ≠ [] →
      DumpGraphic.dumpGraphic env info gf p =
        (none, [DumpGraphic.Event.render (env.SetPalette g p)])) ∧
    (g.PaletteData = [] → p = [] →
      DumpGraphic.dumpGraphic env info gf p = (some (.sentinel .ErrEmptyPalette), []) ∧
      DumpGraphic.rendered (DumpGraphic.dumpGraphic env info gf p).2 = []) ∧
    ((DumpGraphic.dumpGraphic env info gf p).1 = some (.sentinel .ErrEmptyPalette) ↔
      g.PaletteData = [] ∧ p = []) := by
  unfold DumpGraphic.dumpGraphic
  rw [hload]
  by_cases hg : g.PaletteData = [] <;> by_cases hp : p = [] <;>
    simp [hg, hp, List.length_eq_zero, DumpGraphic.rendered]

theorem dumpGraphic_palette_precedence_witness :
    Sample.env.LoadGraphic Sample.g2 (some 4) = .ok ⟨Sample.g2, [], [0, 0, 0, 0]⟩ ∧
    DumpGraphic.dumpGraphic Sample.env Sample.g2 (some 4) Sample.red =
      (none, [DumpGraphic.Event.render
        (Sample.env.SetPalette ⟨Sample.g2, [], [0, 0, 0, 0]⟩ Sample.red)]) :=
  ⟨rfl,
    (dumpGraphic_palette_precedence Sample.env Sample.g2 (some 4) Sample.red
      ⟨Sample.g2, [], [0, 0, 0, 0]⟩ rfl).2.1 rfl (by decide)⟩

/-- C8: when `LoadGraphic` fails on a record with an error that neither is
nor wraps `ErrInvalidMagic` or `ErrDecodeFailed`, `dumpGraphic` returns that
same error and hands nothing to `render`; the loop of `main`, having reached
that record, logs the error and returns, so that the records passed to
`dumpGraphic` are those before it and the record itself, and none after
it. -/
theorem dumpGraphic_fatal_stops (env : Env) (gf : File) (palette : Palette)
    (pre : List GraphicInfo) (gif : GraphicInfo) (rest : List GraphicInfo) (err : GoError)
    (hreach : (DumpGraphic.mainLoop env gf palette pre).2 = false)
    (hload : env.LoadGraphic gif gf = .error err)
    (hmagic : errorsIs err .ErrInvalidMagic = false)
    (hdecode : errorsIs err .ErrDecodeFailed = false) :
    DumpGraphic.dumpGraphic env gif gf palette = (some err, []) ∧
    DumpGraphic.rendered (DumpGraphic.dumpGraphic env gif gf palette).2 = [] ∧
    DumpGraphic.mainLoop env gf palette (pre ++ gif :: rest) =
      ((DumpGraphic.mainLoop env gf palette pre).1 ++
        [DumpGraphic.Event.call gif, DumpGraphic.Event.logErr err], true) ∧
    DumpGraphic.calls (DumpGraphic.mainLoop env gf palette (pre ++ gif :: rest)).1 =
      pre ++ [gif] := by
  have hd : DumpGraphic.dumpGraphic env gif gf palette = (some err, []) := by
    unfold DumpGraphic.dumpGraphic
    rw [hload]
    simp [hmagic, hdecode]
  have hl : DumpGraphic.mainLoop env gf palette (pre ++ gif :: rest) =
      ((DumpGraphic.mainLoop env gf palette pre).1 ++
        [DumpGraphic.Event.call gif, DumpGraphic.Event.logErr err], true) := by
    rw [DumpGraphic.mainLoop_append env gf palette (gif :: rest) pre hreach,
      DumpGraphic.mainLoop_cons_err env gf palette gif rest err _ hd]
    simp
  refine ⟨hd, ?_, hl, ?_⟩
  · rw [hd]; rfl
  · rw [hl]
    simp only [DumpGraphic.calls_append, DumpGraphic.calls_mainLoop env gf palette pre hreach]
    simp [DumpGraphic.calls]

theorem dumpGraphic_fatal_stops_witness :
    (DumpGraphic.mainLoop Sample.env (some 4) Sample.red [Sample.g1]).2 = false ∧
    Sample.env.LoadGraphic Sample.g4 (some 4) = .error Sample.readErr ∧
    errorsIs Sample.readErr .ErrInvalidMagic = false ∧
    errorsIs Sample.readErr .ErrDecodeFailed = false ∧
    DumpGraphic.calls (DumpGraphic.mainLoop Sample.env (some 4) Sample.red
        ([Sample.g1] ++ Sample.g4 :: [Sample.g2])).1 =
      [Sample.g1] ++ [Sample.g4] :=
  ⟨by decide, rfl, by decide, by decide,
    (dumpGraphic_fatal_stops Sample.env (some 4) Sample.red [Sample.g1] Sample.g4
      [Sample.g2] Sample.readErr (by decide) rfl (by decide) (by decide)).2.2.2⟩

/-- C10: the fields of `GraphicInfo` are seven `int32`, three bytes, five
blank bytes and one `int32`; laid out in declaration order without gaps they
occupy 40 bytes, `MapID` starting at byte 36. The fields of
`GraphicDataHeader` are two magic bytes, a version byte, a blank byte and
three `int32`, 16 bytes in all. -/
theorem record_sizes :
    GraphicInfo.fields.map FieldDecl.bytes = [4, 4, 4, 4, 4, 4, 4, 1, 1, 1, 5, 4] ∧
    recordSize GraphicInfo.fields = 40 ∧
    fieldOffset "MapID" GraphicInfo.fields = some 36 ∧
    GraphicDataHeader.fields.map FieldDecl.bytes = [2, 1, 1, 4, 4, 4] ∧
    recordSize GraphicDataHeader.fields = 16 := by
  decide

/-- C9: outside dry-run, the path `output/<ID>.jpg` built by `output`
determines the ID of the record, and for one output directory the path
`<outdir>/<animeID>-<i>.gif` built in `dumpAnime` determines the pair of the
anime ID and the position `i`; IDs are any integers, negative ones
included, and positions are natural numbers. -/
theorem output_paths_injective (dgf : DumpGraphic.dumpGraphicFlags) (gi gi' : GraphicInfo)
    (env : Env) (f : Dumpanime.flags) (ai ai' : AnimeInfo) (i i' : Nat)
    (hdry : dgf.DryRun = false) (hdr : f.dr = false) :
    (DumpGraphic.output dgf gi = DumpGraphic.output dgf gi' ↔ gi.ID = gi'.ID) ∧
    (Dumpanime.target env f ai i = Dumpanime.target env f ai' i' ↔
      ai.ID = ai'.ID ∧ i = i') := by
  constructor
  · constructor
    · intro h
      have hd := congrArg String.data h
      simp only [DumpGraphic.output, hdry, String.data_append] at hd
      have h1 := List.append_cancel_right hd
      have h2 := List.append_cancel_left h1
      exact formatInt_injective (String.ext h2)
    · intro h
      simp [DumpGraphic.output, h]
  · constructor
    · intro h
      have hd := congrArg String.data h
      simp only [Dumpanime.target, hdr, String.data_append] at hd
      have h1 := List.append_cancel_right hd
      simp only [List.append_assoc] at h1
      have h2 := List.append_cancel_left (List.append_cancel_left h1)
      exact id_dash_index_injective h2
    · rintro ⟨h1, h2⟩
      simp [Dumpanime.target, h1, h2]

theorem output_paths_injective_witness :
    Sample.dgf.DryRun = false ∧ Sample.flags.dr = false ∧
    (DumpGraphic.output Sample.dgf (Sample.info (-12) 0) =
        DumpGraphic.output Sample.dgf (Sample.info 12 0) ↔ (-12 : Int) = 12) ∧
    (Dumpanime.target Sample.env Sample.flags ⟨-1, []⟩ 11 =
        Dumpanime.target Sample.env Sample.flags ⟨-11, []⟩ 1 ↔
      (-1 : Int) = -11 ∧ 11 = 1) :=
  ⟨rfl, rfl,
    output_paths_injective Sample.dgf (Sample.info (-12) 0) (Sample.info 12 0) Sample.env
      Sample.flags ⟨-1, []⟩ ⟨-11, []⟩ 11 1 rfl rfl⟩

/-- C2: for anime 10 of the sample the overlay index has a record, the
overlay graphic loads and carries an empty palette, and the external palette
is not empty; `palette` returns the empty palette with a nil error, not the
external palette. -/
theorem palette_returns_empty_overlay :
    Sample.pres.GraphicMapIndex.lookup Sample.a10.ID = some Sample.ov10 ∧
    Sample.env.LoadGraphic Sample.ov10 Sample.pres.GraphicFile =
      .ok ⟨Sample.ov10, [], [0, 0, 0, 0]⟩ ∧
    Sample.res.Palette = Sample.red ∧
    Dumpanime.palette Sample.env Sample.res Sample.pres Sample.a10 = ([], none) :=
  ⟨by decide, rfl, by decide, by decide⟩

/-- C4, as stated, fails: with an empty supplied palette the loop of `main`
over the records 2 and 1 stops at record 2, for which `dumpGraphic` returns
`ErrEmptyPalette`, and never passes record 1 to `dumpGraphic`; with an empty
external palette `DumpAnime` over the animes 7, 8 and 10 returns the
palette-not-found error of anime 8 and passes neither anime 8 nor anime 10
to `dumpAnime`. -/
theorem unresolved_palette_not_skipped :
    (DumpGraphic.dumpGraphic Sample.env Sample.g2 (some 4) []).1 =
      some (.sentinel .ErrEmptyPalette) ∧
    Sample.g1 ∉ DumpGraphic.calls
      (DumpGraphic.mainLoop Sample.env (some 4) [] [Sample.g2, Sample.g1]).1 ∧
    Sample.resBare.AnimeInfoIndex = [Sample.a7, Sample.a8, Sample.a10] ∧
    Dumpanime.palette Sample.env Sample.resBare Sample.pres Sample.a8 =
      ([], some (.wrapped "palette not found: 8" Dumpanime.errPaletteNotFound)) ∧
    (Dumpanime.DumpAnime Sample.env none Sample.flagsBare).1 =
      some (.wrapped "palette not found: 8" Dumpanime.errPaletteNotFound) ∧
    Sample.a10 ∉ Dumpanime.calls (Dumpanime.DumpAnime Sample.env none Sample.flagsBare).2 :=
  ⟨by decide, by decide, by decide, by decide, by decide, by decide⟩

/-- C4, amended: an entry for which no palette can be resolved ends the
batch, in each command on its own. When the loop of `main` reaches a record
for which `dumpGraphic` returns `ErrEmptyPalette`, `main` logs that error
and returns: after what the loop did for the records before, it does
nothing but call `dumpGraphic` on the record and log the error, and the
records passed to `dumpGraphic` are those before it and the record itself.
When the loop of `DumpAnime` reaches an entry for which `palette` returns
the palette-not-found error, `DumpAnime` returns that error having done
nothing more than it did for the entries before, and the entries passed to
`dumpAnime` are those before it. In both, no remaining entry is
processed. -/
theorem unresolved_palette_stops_batch
    (env : Env) (gf : File) (p : Palette)
    (pre : List GraphicInfo) (gif : GraphicInfo) (rest : List GraphicInfo)
    (aenv : Env) (f : Dumpanime.flags) (res pres : Resources)
    (apre : List AnimeInfo) (ai : AnimeInfo) (arest : List AnimeInfo) :
    ((DumpGraphic.mainLoop env gf p pre).2 = false →
      (DumpGraphic.dumpGraphic env gif gf p).1 = some (.sentinel .ErrEmptyPalette) →
      DumpGraphic.mainLoop env gf p (pre ++ gif :: rest) =
        ((DumpGraphic.mainLoop env gf p pre).1 ++
          [DumpGraphic.Event.call gif, DumpGraphic.Event.logErr (.sentinel .ErrEmptyPalette)],
          true) ∧
      DumpGraphic.calls (DumpGraphic.mainLoop env gf p (pre ++ gif :: rest)).1 =
        pre ++ [gif]) ∧
    (Dumpanime.openResources aenv f = (res, pres, none) →
      res.AnimeInfoIndex = apre ++ ai :: arest →
      (Dumpanime.animeLoop aenv f res pres apre none).returned = false →
      Dumpanime.palette aenv res pres ai =
        ([], some (.wrapped ("palette not found: " ++ formatInt ai.ID)
          Dumpanime.errPaletteNotFound)) →
      Dumpanime.DumpAnime aenv none f =
        (some (.wrapped ("palette not found: " ++ formatInt ai.ID)
            Dumpanime.errPaletteNotFound),
          (Dumpanime.animeLoop aenv f res pres apre none).events) ∧
      Dumpanime.calls (Dumpanime.DumpAnime aenv none f).2 = apre) := by
  constructor
  · intro hreach hempty
    have hd : DumpGraphic.dumpGraphic env gif gf p =
        (some (.sentinel .ErrEmptyPalette), []) := by
      have h2 := DumpGraphic.dumpGraphic_error_events env gif gf p _ hempty
      rw [← hempty, ← h2]
    have hl : DumpGraphic.mainLoop env gf p (pre ++ gif :: rest) =
        ((DumpGraphic.mainLoop env gf p pre).1 ++
          [DumpGraphic.Event.call gif,
            DumpGraphic.Event.logErr (.sentinel .ErrEmptyPalette)], true) := by
      rw [DumpGraphic.mainLoop_append env gf p (gif :: rest) pre hreach,
        DumpGraphic.mainLoop_cons_err env gf p gif rest _ _ hd]
      simp
    refine ⟨hl, ?_⟩
    rw [hl]
    simp only [DumpGraphic.calls_append, DumpGraphic.calls_mainLoop env gf p pre hreach]
    simp [DumpGraphic.calls]
  · intro hopen hidx hareach hnf
    exact Dumpanime.DumpAnime_palette_error aenv f res pres apre ai arest _ hopen hidx hareach
      (by rw [hnf])

theorem unresolved_palette_stops_batch_witness :
    ((DumpGraphic.mainLoop Sample.env (some 4) [] [Sample.g1]).2 = false ∧
      (DumpGraphic.dumpGraphic Sample.env Sample.g2 (some 4) []).1 =
        some (.sentinel .ErrEmptyPalette) ∧
      DumpGraphic.mainLoop Sample.env (some 4) [] ([Sample.g1] ++ Sample.g2 :: [Sample.g3]) =
        ((DumpGraphic.mainLoop Sample.env (some 4) [] [Sample.g1]).1 ++
          [DumpGraphic.Event.call Sample.g2,
            DumpGraphic.Event.logErr (.sentinel .ErrEmptyPalette)], true) ∧
      DumpGraphic.calls
          (DumpGraphic.mainLoop Sample.env (some 4) []
            ([Sample.g1] ++ Sample.g2 :: [Sample.g3])).1 =
        [Sample.g1] ++ [Sample.g2]) ∧
    (Sample.resBare.AnimeInfoIndex = [Sample.a7] ++ Sample.a8 :: [Sample.a10] ∧
      Dumpanime.DumpAnime Sample.env none Sample.flagsBare =
        (some (.wrapped ("palette not found: " ++ formatInt Sample.a8.ID)
            Dumpanime.errPaletteNotFound),
          (Dumpanime.animeLoop Sample.env Sample.flagsBare Sample.resBare Sample.pres
            [Sample.a7] none).events) ∧
      Dumpanime.calls (Dumpanime.DumpAnime Sample.env none Sample.flagsBare).2 =
        [Sample.a7]) :=
  ⟨⟨by decide, by decide,
      (unresolved_palette_stops_batch Sample.env (some 4) [] [Sample.g1] Sample.g2 [Sample.g3]
        Sample.failingEnv Sample.flagsBare Sample.resBare Sample.pres
        [Sample.a7] Sample.a8 [Sample.a10]).1 (by decide) (by decide)⟩,
    ⟨by decide,
      (unresolved_palette_stops_batch Sample.failingEnv (some 4) Sample.red [] Sample.g1 []
        Sample.env Sample.flagsBare Sample.resBare Sample.pres
        [Sample.a7] Sample.a8 [Sample.a10]).2 rfl (by decide) (by decide) (by decide)⟩⟩

/-- C5: when the overlay index by map ID has a record under the ID of an
anime and loading that overlay graphic fails, `palette` returns that same
error with no palette, whatever the external palette; and `DumpAnime`,
whose loop reached that anime, returns that error at once, having done
nothing more than it did for the entries before: the entries passed to
`dumpAnime` are those before that anime, neither the anime itself nor any
later one. -/
theorem overlay_load_error_is_fatal (env : Env) (f : Dumpanime.flags) (res pres : Resources)
    (pre : List AnimeInfo) (ai : AnimeInfo) (rest : List AnimeInfo)
    (info : GraphicInfo) (err : GoError)
    (hopen : Dumpanime.openResources env f = (res, pres, none))
    (hidx : res.AnimeInfoIndex = pre ++ ai :: rest)
    (hreach : (Dumpanime.animeLoop env f res pres pre none).returned = false)
    (hfound : pres.GraphicMapIndex.lookup ai.ID = some info)
    (hload : env.LoadGraphic info pres.GraphicFile = .error err) :
    Dumpanime.palette env res pres ai = ([], some err) ∧
    Dumpanime.DumpAnime env none f =
      (some err, (Dumpanime.animeLoop env f res pres pre none).events) ∧
    Dumpanime.calls (Dumpanime.DumpAnime env none f).2 = pre := by
  have hlen : pres.GraphicMapIndex.length > 0 := by
    cases hm : pres.GraphicMapIndex with
    | nil => rw [hm] at hfound; simp at hfound
    | cons x xs => simp
  have hp : Dumpanime.palette env res pres ai = ([], some err) := by
    unfold Dumpanime.palette
    simp only [hlen, if_true, hfound, hload]
  exact ⟨hp, Dumpanime.DumpAnime_palette_error env f res pres pre ai rest err hopen hidx hreach
    (by rw [hp])⟩

theorem overlay_load_error_is_fatal_witness :
    Sample.res9.AnimeInfoIndex = [Sample.a7] ++ Sample.a9 :: [Sample.a8] ∧
    Sample.pres.GraphicMapIndex.lookup Sample.a9.ID = some Sample.ov9 ∧
    Sample.res9.Palette = Sample.red ∧
    Dumpanime.palette Sample.env Sample.res9 Sample.pres Sample.a9 =
      ([], some Sample.readErr) ∧
    Dumpanime.DumpAnime Sample.env none Sample.flags9 =
      (some Sample.readErr,
        (Dumpanime.animeLoop Sample.env Sample.flags9 Sample.res9 Sample.pres
          [Sample.a7] none).events) ∧
    Dumpanime.calls (Dumpanime.DumpAnime Sample.env none Sample.flags9).2 = [Sample.a7] :=
  ⟨by decide, by decide, by decide,
    overlay_load_error_is_fatal Sample.env Sample.flags9 Sample.res9 Sample.pres
      [Sample.a7] Sample.a9 [Sample.a8] Sample.ov9 Sample.readErr
      rfl (by decide) (by decide) (by decide) rfl⟩

/-- C6: when the resources open and `palette` returns a palette for every
entry of the anime index, `DumpAnime` passes every entry to `dumpAnime`
exactly once, in the order the loop visits them, whatever `dumpAnime`
returned for the entries before. -/
theorem dumpAnime_called_on_every_entry (env : Env) (f : Dumpanime.flags)
    (res pres : Resources)
    (hopen : Dumpanime.openResources env f = (res, pres, none))
    (hres : ∀ ai ∈ res.AnimeInfoIndex, (Dumpanime.palette env res pres ai).2 = none) :
    Dumpanime.calls (Dumpanime.DumpAnime env none f).2 = res.AnimeInfoIndex := by
  obtain ⟨h1, h2⟩ := Dumpanime.animeLoop_all_resolved env f res pres res.AnimeInfoIndex none hres
  rw [Dumpanime.DumpAnime_of_open env f res pres hopen, h1]
  simp only [Bool.false_eq_true, if_false, Dumpanime.animeCalls_append, h2]
  simp [Dumpanime.calls]

theorem dumpAnime_called_on_every_entry_witness :
    Sample.res.AnimeInfoIndex = [Sample.a8, Sample.a7] ∧
    (Dumpanime.dumpAnime Sample.env Sample.flags Sample.a8 Sample.res.AnimeFile
      Sample.res.GraphicIDIndex Sample.res.GraphicFile Sample.red).1 = some Sample.frameErr ∧
    Dumpanime.calls (Dumpanime.DumpAnime Sample.env none Sample.flags).2 =
      Sample.res.AnimeInfoIndex :=
  ⟨by decide, by decide,
    dumpAnime_called_on_every_entry Sample.env Sample.flags Sample.res Sample.pres
      rfl (by decide)⟩

/-- C7: on the sample whose anime index is the animes 7 and 8, every
resource opens and `palette` returns a palette for both entries, `dumpAnime`
fails on anime 8, the entry visited last, and `DumpAnime` returns that
error, not nil. -/
theorem DumpAnime_returns_last_entry_error :
    Dumpanime.openResources Sample.env Sample.flagsLast =
      (Sample.resLast, Sample.pres, none) ∧
    Sample.resLast.AnimeInfoIndex = [Sample.a7, Sample.a8] ∧
    (∀ ai ∈ Sample.resLast.AnimeInfoIndex,
      (Dumpanime.palette Sample.env Sample.resLast Sample.pres ai).2 = none) ∧
    (Dumpanime.dumpAnime Sample.env Sample.flagsLast Sample.a8 Sample.resLast.AnimeFile
      Sample.resLast.GraphicIDIndex Sample.resLast.GraphicFile
      (Dumpanime.palette Sample.env Sample.resLast Sample.pres Sample.a8).1).1 =
        some Sample.frameErr ∧
    (Dumpanime.DumpAnime Sample.env none Sample.flagsLast).1 = some Sample.frameErr :=
  ⟨rfl, by decide, by decide, by decide, by decide⟩

end XGTool
